import Mathlib

/-!
Verification of the shapefile-to-CSV converter (`shapefile_reader.py`).

The development shallowly embeds the script: geometries are modelled through
the narrow interface the script uses (type tag, native x/y, library-computed
centroid, WKT text encoding), dataframes as ordered lists of named, typed
columns of scalar cells, and the filesystem as a finite map from paths to
file contents.  `convert_shapefile_to_csv` and `main` below follow the
source line by line.
-/

namespace ShapeConv

/-- Geometry type tags, as reported by the reader's `geom_type`. -/
inductive GeomType where
  | point
  | lineString
  | polygon
  | multiPoint
  | multiLineString
  | multiPolygon
  | geometryCollection
  deriving DecidableEq, Repr

/-- The type name string exposed as `geom_type` (e.g. `"Point"`). -/
def GeomType.name : GeomType → String
  | GeomType.point => "Point"
  | GeomType.lineString => "LineString"
  | GeomType.polygon => "Polygon"
  | GeomType.multiPoint => "MultiPoint"
  | GeomType.multiLineString => "MultiLineString"
  | GeomType.multiPolygon => "MultiPolygon"
  | GeomType.geometryCollection => "GeometryCollection"

/-- A geometry, modelled through the derived values the script reads from the
geometry library: its type tag, its native `x`/`y` coordinates (meaningful for
points, where the script uses `.x`/`.y`), its centroid coordinates (`.centroid`),
and its Well-Known-Text encoding (`.to_wkt()`, also what `str()` yields on a
geometry object).  The geometry math itself is delegated to the library, so the
derived values are carried as data. -/
structure Geometry where
  gtype : GeomType
  px : ℚ
  py : ℚ
  cx : ℚ
  cy : ℚ
  wkt : String
  deriving DecidableEq, Repr

/-- Pandas column dtypes, as far as the script distinguishes them: the scan at
the end of the conversion only looks inside `object`-dtyped columns.  Columns
holding Python objects (strings, geometry objects) are `object`; purely
numeric columns are `numeric`. -/
inductive Dtype where
  | object
  | numeric
  deriving DecidableEq, Repr

/-- A scalar cell of a dataframe column. -/
inductive Value where
  | str (s : String)
  | num (q : ℚ)
  | geom (g : Geometry)
  deriving DecidableEq, Repr

/-- Whether a cell is a plain number. -/
def Value.isNum : Value → Bool
  | Value.num _ => true
  | _ => false

/-- Whether a cell is a geometry object (i.e. `hasattr(cell, 'geom_type')`). -/
def Value.isGeom : Value → Bool
  | Value.geom _ => true
  | _ => false

/-- The `str()` rendering of a cell, as used by `astype(str)` and `to_csv`;
`str()` of a geometry object is its WKT encoding. -/
def Value.toStr : Value → String
  | Value.str s => s
  | Value.num q => toString q
  | Value.geom g => g.wkt

/-- A named, typed dataframe column. -/
structure Column where
  name : String
  dtype : Dtype
  cells : List Value
  deriving DecidableEq, Repr

/-- A pandas dataframe: a row count (the index length, kept even when all
columns are dropped) and an ordered list of columns. -/
structure DataFrame where
  nrows : Nat
  cols : List Column
  deriving DecidableEq, Repr

/-- A GeoDataFrame as loaded by the reader: the non-geometry attribute columns
in their original order, the geometry column (one geometry per feature), and
the optional declared CRS (as an EPSG code). -/
structure GeoDataFrame where
  attrs : List Column
  geoms : List Geometry
  crs : Option Nat
  deriving DecidableEq, Repr

/-- First column with the given name, i.e. `df[n]` lookup order. -/
def findCol (l : List Column) (n : String) : Option Column :=
  l.find? (fun c => c.name == n)

/-- Column lookup on a dataframe. -/
def DataFrame.getCol (df : DataFrame) (n : String) : Option Column :=
  findCol df.cols n

/-- Model of `df.drop(columns=[n])`: remove the columns named `n`, keeping
the order of the rest. -/
def DataFrame.dropCol (df : DataFrame) (n : String) : DataFrame :=
  ⟨df.nrows, df.cols.filter (fun c => c.name != n)⟩

/-- Model of `df[n] = cells`: replace the column in place when it exists,
otherwise append it at the end. -/
def DataFrame.setCol (df : DataFrame) (n : String) (d : Dtype) (cells : List Value) : DataFrame :=
  if df.cols.any (fun c => c.name == n) then
    ⟨df.nrows, df.cols.map (fun c => if c.name == n then ⟨n, d, cells⟩ else c)⟩
  else
    ⟨df.nrows, df.cols ++ [⟨n, d, cells⟩]⟩

/-- The column names of a dataframe, in order. -/
def ColNames (df : DataFrame) : List String :=
  df.cols.map Column.name

/-- The attribute column names of a GeoDataFrame, in order. -/
def attrNames (gdf : GeoDataFrame) : List String :=
  gdf.attrs.map Column.name

/-- The working dataframe of a loaded GeoDataFrame: the attribute columns
followed by the `geometry` column (an object column of geometry cells). -/
def GeoDataFrame.toDf (gdf : GeoDataFrame) : DataFrame :=
  ⟨gdf.geoms.length, gdf.attrs ++ [⟨"geometry", Dtype.object, gdf.geoms.map Value.geom⟩]⟩

/-- Lines 67-68: `if gdf.crs and gdf.crs.to_epsg() != 4326: gdf = gdf.to_crs('EPSG:4326')`.
Reprojection math is the reader collaborator's capability, passed in as
`reproject`. -/
def applyCrs (reproject : Geometry → Geometry) (gdf : GeoDataFrame) : GeoDataFrame :=
  match gdf.crs with
  | none => gdf
  | some epsg =>
    if epsg = 4326 then gdf
    else ⟨gdf.attrs, gdf.geoms.map reproject, some 4326⟩

/-- Lines 74-105: the coordinate-flattening branch chain over `coord_format`
and `include_geometry`, mirrored branch by branch from the source. -/
def flattenGeometry (include_geometry : Bool) (coord_format : String)
    (gdf : GeoDataFrame) : DataFrame :=
  let df := gdf.toDf
  if coord_format = "none" ∨ include_geometry = false then
    df.dropCol "geometry"
  else if coord_format = "separate" then
    let geom_types := (gdf.geoms.map (fun g => g.gtype.name)).dedup
    let df2 :=
      if "Point" ∈ geom_types then
        (df.setCol "longitude" Dtype.numeric (gdf.geoms.map (fun g => Value.num g.px))).setCol
          "latitude" Dtype.numeric (gdf.geoms.map (fun g => Value.num g.py))
      else
        (((df.setCol "longitude" Dtype.numeric (gdf.geoms.map (fun g => Value.num g.cx))).setCol
          "latitude" Dtype.numeric (gdf.geoms.map (fun g => Value.num g.cy))).setCol
          "geometry_type" Dtype.object (gdf.geoms.map (fun g => Value.str g.gtype.name)))
    df2.dropCol "geometry"
  else if coord_format = "centroid" then
    ((((df.setCol "longitude" Dtype.numeric (gdf.geoms.map (fun g => Value.num g.cx))).setCol
      "latitude" Dtype.numeric (gdf.geoms.map (fun g => Value.num g.cy))).setCol
      "geometry_type" Dtype.object (gdf.geoms.map (fun g => Value.str g.gtype.name))).dropCol
      "geometry")
  else if coord_format = "wkt" then
    (((df.setCol "geometry_wkt" Dtype.object (gdf.geoms.map (fun g => Value.str g.wkt))).setCol
      "geometry_type" Dtype.object (gdf.geoms.map (fun g => Value.str g.gtype.name))).dropCol
      "geometry")
  else df

/-- Lines 108-114 for one column: if the dtype is `object`, inspect the first
cell (`iloc[0]`; on an empty column this raises `IndexError`, which the source
catches and leaves the column unchanged); if the first cell is a geometry
object (`hasattr(_, 'geom_type')`), stringify the whole column. -/
def cleanupColumn (c : Column) : Column :=
  if c.dtype = Dtype.object then
    match c.cells.head? with
    | none => c
    | some v => if v.isGeom then ⟨c.name, c.dtype, c.cells.map (fun w => Value.str w.toStr)⟩ else c
  else c

/-- Lines 108-114: the post-derivation scan over every remaining column. -/
def cleanupDf (df : DataFrame) : DataFrame :=
  ⟨df.nrows, df.cols.map cleanupColumn⟩

/-- The OutputTable derived from a (already reprojected) GeoDataFrame:
flattening followed by the cleanup scan (lines 74-114). -/
def outputDf (gdf : GeoDataFrame) (include_geometry : Bool) (coord_format : String) : DataFrame :=
  cleanupDf (flattenGeometry include_geometry coord_format gdf)

/-- A written CSV file: header row and data rows (`to_csv(index=False)`). -/
structure Csv where
  header : List String
  rows : List (List String)
  deriving DecidableEq, Repr

/-- Model of `df.to_csv(path, index=False)`: header = column names, one row of
stringified cells per dataframe row, no index column. -/
def DataFrame.toCsv (df : DataFrame) : Csv :=
  ⟨df.cols.map Column.name,
   (List.range df.nrows).map (fun i =>
     df.cols.map (fun c => ((c.cells.get? i).map Value.toStr).getD ""))⟩

/-- The first five rows of a CSV, as printed by `df.head()` in the CLI. -/
def Csv.headTable (c : Csv) : Csv :=
  ⟨c.header, c.rows.take 5⟩

/-- Contents of a file on disk. -/
inductive FileData where
  | shapefile (gdf : GeoDataFrame)
  | csv (c : Csv)
  deriving DecidableEq, Repr

deriving instance DecidableEq for Except

/-- The filesystem: a finite association of paths to file contents. -/
abbrev FS := List (String × FileData)

/-- Model of `os.path.exists`. -/
def fsExists (fs : FS) (p : String) : Bool :=
  fs.any (fun e => e.1 == p)

/-- Read the file at a path. -/
def fsGet (fs : FS) (p : String) : Option FileData :=
  (fs.find? (fun e => e.1 == p)).map Prod.snd

/-- Write (create or overwrite) the file at a path. -/
def fsWrite (fs : FS) (p : String) (d : FileData) : FS :=
  (p, d) :: fs.filter (fun e => e.1 != p)

/-- The stem of a file basename: the part before the last dot, where a dot at
position 0 does not start a suffix (`pathlib` rules); `none` when the name has
no suffix. -/
def lastDotSplit : List Char → Option (List Char)
  | [] => none
  | c :: rest =>
    match lastDotSplit rest with
    | some tail => some (c :: tail)
    | none => if c = '.' then some [] else none

/-- Replace the suffix of a basename with `.csv` (append when there is none). -/
def replaceBase (base : List Char) : List Char :=
  match lastDotSplit base with
  | some stem => if stem = [] then base ++ ('.' :: ['c', 's', 'v']) else stem ++ ('.' :: ['c', 's', 'v'])
  | none => base ++ ('.' :: ['c', 's', 'v'])

/-- Split a path at its last slash: `some (dir, base)`, or `none` when it has
no directory part. -/
def splitLastSlash : List Char → Option (List Char × List Char)
  | [] => none
  | c :: rest =>
    match splitLastSlash rest with
    | some (d, b) => some (c :: d, b)
    | none => if c = '/' then some ([], rest) else none

/-- Model of `Path(p).with_suffix('.csv')` (line 64). -/
def withSuffixCsv (p : String) : String :=
  match splitLastSlash p.toList with
  | some (d, b) => String.mk (d ++ '/' :: replaceBase b)
  | none => String.mk (replaceBase p.toList)

/-- The error taxonomy of `convert_shapefile_to_csv`: the explicit
`FileNotFoundError` of line 52 and the wrapped read error of line 61. -/
inductive ConvError where
  | notFound (msg : String)
  | readError (msg : String)
  deriving DecidableEq, Repr

/-- The message attached to an error, as printed by the CLI. -/
def ConvError.message : ConvError → String
  | ConvError.notFound m => m
  | ConvError.readError m => m

/-- Lines 27-124: `convert_shapefile_to_csv(shp_path, csv_path, include_geometry,
coord_format)`.  Returns the filesystem after the write together with the
destination path, or the raised error.  `reproject` is the reader
collaborator's reprojection capability. -/
def convert_shapefile_to_csv (reproject : Geometry → Geometry) (fs : FS)
    (shp_path : String) (csv_path : Option String)
    (include_geometry : Bool) (coord_format : String) :
    Except ConvError (FS × String) :=
  if fsExists fs shp_path then
    match fsGet fs shp_path with
    | some (FileData.shapefile gdf) =>
      let out_path := match csv_path with
        | none => withSuffixCsv shp_path
        | some p => p
      let gdf2 := applyCrs reproject gdf
      let df := outputDf gdf2 include_geometry coord_format
      Except.ok (fsWrite fs out_path (FileData.csv df.toCsv), out_path)
    | _ => Except.error (ConvError.readError "Error reading shapefile")
  else
    Except.error (ConvError.notFound ("Shapefile not found: " ++ shp_path))

/-- The parsed command-line arguments (lines 151-160); `argparse` restricts
`coord_format` to the four documented choices. -/
structure CliArgs where
  shapefile : String
  output : Option String
  coord_format : String
  no_geometry : Bool
  deriving DecidableEq, Repr

/-- The observable outcome of a CLI run: exit code, printed lines, the printed
preview (`df.head()` of the read-back CSV) and the resulting filesystem. -/
structure CliResult where
  exitCode : Nat
  printed : List String
  preview : Option Csv
  fs : FS
  deriving DecidableEq, Repr

/-- Lines 127-180: the CLI `main`.  On any raised error it prints a single
`Error: <message>` line and exits with code 1; on success it prints the
completion message, the output path, and a preview of the first five rows of
the read-back CSV, exiting with code 0. -/
def main (reproject : Geometry → Geometry) (fs : FS) (args : CliArgs) : CliResult :=
  let include_geometry := !args.no_geometry
  match convert_shapefile_to_csv reproject fs args.shapefile args.output
      include_geometry args.coord_format with
  | Except.error e => ⟨1, ["Error: " ++ e.message], none, fs⟩
  | Except.ok (fs2, path) =>
    match fsGet fs2 path with
    | some (FileData.csv c) =>
      ⟨0, ["Conversion completed successfully!", "Output file: " ++ path,
           "Preview of first 5 rows:"], some c.headTable, fs2⟩
    | _ => ⟨1, ["Error: could not read the produced CSV"], none, fs2⟩

/-- Well-formedness of a loaded GeoDataFrame: attribute columns are aligned
with the features, and no attribute column is named `geometry` (the reader
reserves that name for the geometry column). -/
def GeoDataFrame.WellFormed (gdf : GeoDataFrame) : Prop :=
  (∀ c ∈ gdf.attrs, c.cells.length = gdf.geoms.length) ∧
  "geometry" ∉ attrNames gdf

/-- Dtype soundness of a column: a numeric-dtyped column holds only numeric
cells (pandas stores Python objects, geometries included, under the `object`
dtype). -/
def DtypeOk (c : Column) : Prop :=
  c.dtype = Dtype.numeric → ∀ v ∈ c.cells, v.isNum = true

/-- Modelled from the spec: the column names predicted by the coordinate
policy table of section 4.1, given the attribute names and the geometry type
names of the FeatureSet.  Used only to compare the code's output schema
against the spec's table. -/
def specPredictedColumns (include_geometry : Bool) (coord_mode : String)
    (attrs : List String) (geomTypeNames : List String) : List String :=
  if include_geometry = false ∨ coord_mode = "none" then attrs
  else if coord_mode = "separate" then
    if "Point" ∈ geomTypeNames then attrs ++ ["longitude", "latitude"]
    else attrs ++ ["longitude", "latitude", "geometry_type"]
  else if coord_mode = "centroid" then attrs ++ ["longitude", "latitude", "geometry_type"]
  else if coord_mode = "wkt" then attrs ++ ["geometry_wkt", "geometry_type"]
  else attrs

/-- Sample point geometry for concrete instantiations. -/
def gPt : Geometry := ⟨GeomType.point, 1, 2, 1, 2, "POINT (1 2)"⟩

/-- Sample polygon geometry for concrete instantiations. -/
def gPoly : Geometry := ⟨GeomType.polygon, 0, 0, 5, 6, "POLYGON ((0 0, 2 0, 2 2, 0 0))"⟩

/-- Sample point-only GeoDataFrame with one string attribute. -/
def gdfPt : GeoDataFrame := ⟨[⟨"name", Dtype.object, [Value.str "a"]⟩], [gPt], some 4326⟩

/-- Sample polygon-only GeoDataFrame with one string attribute. -/
def gdfPg : GeoDataFrame := ⟨[⟨"name", Dtype.object, [Value.str "a"]⟩], [gPoly], some 4326⟩

/-- Sample GeoDataFrame with zero features. -/
def gdfE : GeoDataFrame := ⟨[⟨"name", Dtype.object, []⟩], [], some 4326⟩

/-- Sample GeoDataFrame with no declared CRS. -/
def gdfNC : GeoDataFrame := ⟨[⟨"name", Dtype.object, [Value.str "a"]⟩], [gPt], none⟩

/-- Sample GeoDataFrame whose declared CRS is not EPSG:4326. -/
def gdfMerc : GeoDataFrame := ⟨[], [gPoly], some 3857⟩

/-- Sample filesystem holding the point shapefile. -/
def fsPt : FS := [("a.shp", FileData.shapefile gdfPt)]

/-- Sample filesystem holding the empty shapefile. -/
def fsE : FS := [("e.shp", FileData.shapefile gdfE)]

/-- Sample filesystem holding the CRS-less shapefile. -/
def fsNC : FS := [("n.shp", FileData.shapefile gdfNC)]

/-- Sample column whose cells are raw geometry objects. -/
def colLeak : Column := ⟨"leak", Dtype.object, [Value.geom gPoly]⟩

/-- Sample dataframe containing a leaked geometry column. -/
def dfLeak : DataFrame := ⟨1, [colLeak]⟩

theorem findCol_eq_none {l : List Column} {n : String} (h : n ∉ l.map Column.name) :
    findCol l n = none := by
  rw [findCol, List.find?_eq_none]
  intro c hc hbeq
  have hcn : c.name = n := by simpa [beq_iff_eq] using hbeq
  exact h (hcn ▸ List.mem_map_of_mem Column.name hc)

theorem findCol_append (l1 l2 : List Column) (n : String) :
    findCol (l1 ++ l2) n = (findCol l1 n).or (findCol l2 n) := by
  simp [findCol, List.find?_append]

theorem findCol_map_replace {l : List Column} {n : String} (d : Dtype) (cells : List Value)
    (h : l.any (fun c => c.name == n) = true) :
    findCol (l.map (fun c => if c.name == n then ⟨n, d, cells⟩ else c)) n =
      some ⟨n, d, cells⟩ := by
  rw [findCol, List.find?_map]
  have hcomp : ((fun c : Column => c.name == n) ∘
      (fun c : Column => if c.name == n then (⟨n, d, cells⟩ : Column) else c)) =
      fun c : Column => c.name == n := by
    funext c
    by_cases hc : c.name = n
    · simp [Function.comp, hc]
    · simp [Function.comp, hc]
  rw [hcomp]
  rw [List.any_eq_true] at h
  obtain ⟨c0, hc0, hc0n⟩ := h
  obtain ⟨c1, hfind⟩ : ∃ c1, l.find? (fun c : Column => c.name == n) = some c1 := by
    cases hf : l.find? (fun c : Column => c.name == n) with
    | some c1 => exact ⟨c1, rfl⟩
    | none => exact absurd hc0n ((List.find?_eq_none.mp hf) c0 hc0)
  have hc1 : c1.name = n := by
    have := List.find?_some hfind
    simpa [beq_iff_eq] using this
  rw [hfind]
  simp [Option.map_some, hc1]

theorem findCol_map_replace_ne {l : List Column} {m n : String} (hmn : m ≠ n)
    (d : Dtype) (cells : List Value) :
    findCol (l.map (fun c => if c.name == n then ⟨n, d, cells⟩ else c)) m =
      findCol l m := by
  rw [findCol, List.find?_map, findCol]
  have hcomp : ((fun c : Column => c.name == m) ∘
      (fun c : Column => if c.name == n then (⟨n, d, cells⟩ : Column) else c)) =
      fun c : Column => c.name == m := by
    funext c
    by_cases hc : c.name = n
    · simp [Function.comp, hc, Ne.symm hmn]
    · simp [Function.comp, hc]
  rw [hcomp]
  cases hf : l.find? (fun c : Column => c.name == m) with
  | none => simp
  | some c1 =>
    have hc1 : c1.name = m := by
      have := List.find?_some hf
      simpa [beq_iff_eq] using this
    have : ¬ c1.name = n := by rw [hc1]; exact hmn
    simp [this]

theorem getCol_setCol_self (df : DataFrame) (n : String) (d : Dtype) (cells : List Value) :
    (df.setCol n d cells).getCol n = some ⟨n, d, cells⟩ := by
  unfold DataFrame.setCol
  split
  · next hany => exact findCol_map_replace d cells hany
  · next hany =>
    show findCol (df.cols ++ [⟨n, d, cells⟩]) n = some ⟨n, d, cells⟩
    rw [findCol_append]
    have : findCol df.cols n = none := by
      apply findCol_eq_none
      intro hmem
      apply hany
      rw [List.any_eq_true]
      obtain ⟨c, hc, hcn⟩ := List.mem_map.mp hmem
      exact ⟨c, hc, by simp [hcn]⟩
    rw [this]
    simp [findCol, List.find?]

theorem getCol_setCol_ne (df : DataFrame) {m n : String} (hmn : m ≠ n)
    (d : Dtype) (cells : List Value) :
    (df.setCol n d cells).getCol m = df.getCol m := by
  unfold DataFrame.setCol
  split
  · next hany => exact findCol_map_replace_ne hmn d cells
  · next hany =>
    show findCol (df.cols ++ [⟨n, d, cells⟩]) m = findCol df.cols m
    rw [findCol_append]
    cases hf : findCol df.cols m with
    | some c => simp
    | none =>
      have hnm : (n == m) = false := by simp [Ne.symm hmn]
      simp only [Option.none_or, findCol, List.find?, hnm]

theorem getCol_dropCol_ne (df : DataFrame) {m n : String} (hmn : m ≠ n) :
    (df.dropCol n).getCol m = df.getCol m := by
  show findCol (df.cols.filter (fun c => c.name != n)) m = findCol df.cols m
  rw [findCol, List.find?_filter, findCol]
  congr 1
  funext c
  by_cases hc : c.name = m
  · simp [hc, hmn]
  · simp [hc]

theorem colNames_setCol_mem {m : String} (df : DataFrame) (n : String)
    (d : Dtype) (cells : List Value)
    (h : m ∈ ColNames (df.setCol n d cells)) : m ∈ ColNames df ∨ m = n := by
  unfold DataFrame.setCol at h
  split at h
  · simp only [ColNames, List.map_map, List.mem_map] at h
    obtain ⟨c, hc, hcm⟩ := h
    by_cases hcn : c.name = n
    · right
      rw [← hcm]
      simp [Function.comp, hcn]
    · left
      simp only [ColNames, List.mem_map]
      exact ⟨c, hc, by simpa [Function.comp, hcn] using hcm⟩
  · simp only [ColNames, List.map_append, List.mem_append, List.map_cons, List.map_nil,
      List.mem_cons, List.not_mem_nil, or_false] at h
    rcases h with h | h
    · exact Or.inl h
    · exact Or.inr h

theorem colNames_setCol_not_mem (df : DataFrame) {n : String} (h : n ∉ ColNames df)
    (d : Dtype) (cells : List Value) :
    ColNames (df.setCol n d cells) = ColNames df ++ [n] := by
  unfold DataFrame.setCol
  split
  · next hany =>
    exfalso
    rw [List.any_eq_true] at hany
    obtain ⟨c, hc, hcn⟩ := hany
    apply h
    simp only [ColNames, List.mem_map]
    exact ⟨c, hc, by simpa [beq_iff_eq] using hcn⟩
  · show (df.cols ++ [(⟨n, d, cells⟩ : Column)]).map Column.name =
      df.cols.map Column.name ++ [n]
    rw [List.map_append]
    rfl

theorem colNames_dropCol (df : DataFrame) (n : String) :
    ColNames (df.dropCol n) = (ColNames df).filter (fun m => m != n) := by
  show (df.cols.filter (fun c => c.name != n)).map Column.name =
    (df.cols.map Column.name).filter (fun m => m != n)
  rw [List.filter_map]
  rfl

theorem colNames_dropCol_mem {m : String} (df : DataFrame) (n : String) :
    m ∈ ColNames (df.dropCol n) ↔ m ∈ ColNames df ∧ m ≠ n := by
  rw [colNames_dropCol, List.mem_filter]
  simp

theorem cleanupColumn_name (c : Column) : (cleanupColumn c).name = c.name := by
  unfold cleanupColumn
  split
  · split
    · rfl
    · split <;> rfl
  · rfl

theorem getCol_cleanupDf (df : DataFrame) (n : String) :
    (cleanupDf df).getCol n = (df.getCol n).map cleanupColumn := by
  show findCol (df.cols.map cleanupColumn) n = (findCol df.cols n).map cleanupColumn
  rw [findCol, List.find?_map, findCol]
  have hcomp : ((fun c : Column => c.name == n) ∘ cleanupColumn) =
      fun c : Column => c.name == n := by
    funext c
    simp [Function.comp, cleanupColumn_name]
  rw [hcomp]

theorem colNames_cleanupDf (df : DataFrame) : ColNames (cleanupDf df) = ColNames df := by
  show (df.cols.map cleanupColumn).map Column.name = df.cols.map Column.name
  rw [List.map_map]
  have hcomp : (Column.name ∘ cleanupColumn) = Column.name := by
    funext c
    simp [Function.comp, cleanupColumn_name]
  rw [hcomp]

theorem cleanupColumn_numeric {c : Column} (h : c.dtype = Dtype.numeric) :
    cleanupColumn c = c := by
  unfold cleanupColumn
  rw [if_neg (by rw [h]; intro hc; cases hc)]

theorem cleanupColumn_nil {c : Column} (h : c.cells = []) : cleanupColumn c = c := by
  unfold cleanupColumn
  split
  · rw [h]
    rfl
  · rfl

theorem cleanupColumn_str_head {c : Column} {s : String} {t : List Value}
    (h : c.cells = Value.str s :: t) : cleanupColumn c = c := by
  unfold cleanupColumn
  split
  · rw [h]
    simp [Value.isGeom]
  · rfl

theorem nrows_setCol (df : DataFrame) (n : String) (d : Dtype) (cells : List Value) :
    (df.setCol n d cells).nrows = df.nrows := by
  unfold DataFrame.setCol
  split <;> rfl

theorem nrows_dropCol (df : DataFrame) (n : String) : (df.dropCol n).nrows = df.nrows := rfl

theorem nrows_cleanupDf (df : DataFrame) : (cleanupDf df).nrows = df.nrows := rfl

theorem nrows_flatten (inc : Bool) (fmt : String) (gdf : GeoDataFrame) :
    (flattenGeometry inc fmt gdf).nrows = gdf.geoms.length := by
  simp only [flattenGeometry]
  split_ifs <;> simp [nrows_setCol, nrows_dropCol, GeoDataFrame.toDf]

theorem nrows_outputDf (gdf : GeoDataFrame) (inc : Bool) (fmt : String) :
    (outputDf gdf inc fmt).nrows = gdf.geoms.length := by
  unfold outputDf
  rw [nrows_cleanupDf, nrows_flatten]

theorem toCsv_header (df : DataFrame) : df.toCsv.header = ColNames df := rfl

theorem toCsv_rows_length (df : DataFrame) : df.toCsv.rows.length = df.nrows := by
  simp [DataFrame.toCsv]

theorem fsGet_fsWrite (fs : FS) (p : String) (d : FileData) :
    fsGet (fsWrite fs p d) p = some d := by
  simp [fsGet, fsWrite, List.find?]

theorem fsExists_of_fsGet {fs : FS} {p : String} {x : FileData}
    (h : fsGet fs p = some x) : fsExists fs p = true := by
  unfold fsGet at h
  cases hf : fs.find? (fun e => e.1 == p) with
  | none => rw [hf] at h; cases h
  | some e =>
    have := List.find?_some hf
    have hmem := List.mem_of_find?_eq_some hf
    rw [fsExists, List.any_eq_true]
    exact ⟨e, hmem, this⟩

theorem applyCrs_attrs (r : Geometry → Geometry) (gdf : GeoDataFrame) :
    (applyCrs r gdf).attrs = gdf.attrs := by
  obtain ⟨attrs, geoms, crs⟩ := gdf
  cases crs with
  | none => rfl
  | some epsg =>
    simp only [applyCrs]
    split <;> rfl

theorem applyCrs_geoms_length (r : Geometry → Geometry) (gdf : GeoDataFrame) :
    (applyCrs r gdf).geoms.length = gdf.geoms.length := by
  obtain ⟨attrs, geoms, crs⟩ := gdf
  cases crs with
  | none => rfl
  | some epsg =>
    simp only [applyCrs]
    split <;> simp

theorem applyCrs_gtype_names (r : Geometry → Geometry) (gdf : GeoDataFrame)
    (hr : ∀ g, (r g).gtype = g.gtype) :
    (applyCrs r gdf).geoms.map (fun g => g.gtype.name) =
      gdf.geoms.map (fun g => g.gtype.name) := by
  obtain ⟨attrs, geoms, crs⟩ := gdf
  cases crs with
  | none => rfl
  | some epsg =>
    simp only [applyCrs]
    split
    · rfl
    · show (geoms.map r).map (fun g => g.gtype.name) = geoms.map (fun g => g.gtype.name)
      rw [List.map_map]
      have hcomp : ((fun g : Geometry => g.gtype.name) ∘ r) =
          fun g : Geometry => g.gtype.name := by
        funext g
        simp [Function.comp, hr]
      rw [hcomp]

theorem gtype_name_point {t : GeomType} : t.name = "Point" ↔ t = GeomType.point := by
  cases t <;> simp [GeomType.name]

theorem colNames_toDf (gdf : GeoDataFrame) :
    ColNames gdf.toDf = attrNames gdf ++ ["geometry"] := by
  show (gdf.attrs ++ [(⟨"geometry", Dtype.object, gdf.geoms.map Value.geom⟩ : Column)]).map
    Column.name = gdf.attrs.map Column.name ++ ["geometry"]
  rw [List.map_append]
  rfl

theorem getCol_toDf_geometry (gdf : GeoDataFrame) (h : "geometry" ∉ attrNames gdf) :
    gdf.toDf.getCol "geometry" =
      some ⟨"geometry", Dtype.object, gdf.geoms.map Value.geom⟩ := by
  show findCol (gdf.attrs ++ [(⟨"geometry", Dtype.object, gdf.geoms.map Value.geom⟩ : Column)])
    "geometry" = _
  rw [findCol_append, findCol_eq_none h]
  rfl

theorem flatten_none (inc : Bool) (fmt : String) (gdf : GeoDataFrame)
    (h : fmt = "none" ∨ inc = false) :
    flattenGeometry inc fmt gdf = gdf.toDf.dropCol "geometry" := by
  simp only [flattenGeometry]
  rw [if_pos h]

theorem flatten_separate_point (gdf : GeoDataFrame)
    (h : "Point" ∈ gdf.geoms.map (fun g => g.gtype.name)) :
    flattenGeometry true "separate" gdf =
      ((gdf.toDf.setCol "longitude" Dtype.numeric
          (gdf.geoms.map (fun g => Value.num g.px))).setCol
        "latitude" Dtype.numeric (gdf.geoms.map (fun g => Value.num g.py))).dropCol
        "geometry" := by
  simp only [flattenGeometry]
  rw [if_neg (by simp), if_pos trivial, if_pos (by simpa [List.mem_dedup] using h)]

theorem flatten_separate_no_point (gdf : GeoDataFrame)
    (h : "Point" ∉ gdf.geoms.map (fun g => g.gtype.name)) :
    flattenGeometry true "separate" gdf =
      (((gdf.toDf.setCol "longitude" Dtype.numeric
          (gdf.geoms.map (fun g => Value.num g.cx))).setCol
        "latitude" Dtype.numeric (gdf.geoms.map (fun g => Value.num g.cy))).setCol
        "geometry_type" Dtype.object
          (gdf.geoms.map (fun g => Value.str g.gtype.name))).dropCol "geometry" := by
  simp only [flattenGeometry]
  rw [if_neg (by simp), if_pos trivial, if_neg (by simpa [List.mem_dedup] using h)]

theorem flatten_centroid (gdf : GeoDataFrame) :
    flattenGeometry true "centroid" gdf =
      (((gdf.toDf.setCol "longitude" Dtype.numeric
          (gdf.geoms.map (fun g => Value.num g.cx))).setCol
        "latitude" Dtype.numeric (gdf.geoms.map (fun g => Value.num g.cy))).setCol
        "geometry_type" Dtype.object
          (gdf.geoms.map (fun g => Value.str g.gtype.name))).dropCol "geometry" := by
  simp only [flattenGeometry]
  rw [if_neg (by simp), if_neg (by simp), if_pos trivial]

theorem flatten_wkt (gdf : GeoDataFrame) :
    flattenGeometry true "wkt" gdf =
      ((gdf.toDf.setCol "geometry_wkt" Dtype.object
          (gdf.geoms.map (fun g => Value.str g.wkt))).setCol
        "geometry_type" Dtype.object
          (gdf.geoms.map (fun g => Value.str g.gtype.name))).dropCol "geometry" := by
  simp only [flattenGeometry]
  rw [if_neg (by simp), if_neg (by simp), if_neg (by simp), if_pos trivial]

theorem flatten_unknown (inc : Bool) (fmt : String) (gdf : GeoDataFrame)
    (h1 : fmt ≠ "none") (h2 : inc = true) (h3 : fmt ≠ "separate")
    (h4 : fmt ≠ "centroid") (h5 : fmt ≠ "wkt") :
    flattenGeometry inc fmt gdf = gdf.toDf := by
  simp only [flattenGeometry]
  rw [if_neg (by simp [h1, h2]), if_neg h3, if_neg h4, if_neg h5]

theorem cleanupColumn_head_not_geom {c : Column}
    (h : ∀ v, c.cells.head? = some v → v.isGeom = false) : cleanupColumn c = c := by
  unfold cleanupColumn
  split
  · split
    · rfl
    · next v hv =>
      rw [if_neg]
      simp [h v hv]
  · rfl

theorem cleanupColumn_str_cells {c : Column} {l : List Geometry} {f : Geometry → String}
    (h : c.cells = l.map (fun g => Value.str (f g))) : cleanupColumn c = c := by
  apply cleanupColumn_head_not_geom
  intro v hv
  rw [h] at hv
  cases l with
  | nil => cases hv
  | cons g t =>
    simp only [List.map_cons, List.head?_cons, Option.some.injEq] at hv
    rw [← hv]
    rfl

theorem attrNames_applyCrs (r : Geometry → Geometry) (gdf : GeoDataFrame) :
    attrNames (applyCrs r gdf) = attrNames gdf := by
  unfold attrNames
  rw [applyCrs_attrs]

theorem filter_ne_geometry {l : List String} (h : "geometry" ∉ l) :
    l.filter (fun m => m != "geometry") = l := by
  apply List.filter_eq_self.mpr
  intro a ha
  simp only [bne_iff_ne, ne_eq]
  intro heq
  exact h (heq ▸ ha)

/-- C1 counterexample: the empty FeatureSet vacuously has only Point features,
yet `coord_format='separate'` takes the centroid branch (no `'Point'` in the
empty list of geometry types) and does add a `geometry_type` column. -/
theorem claim_C1_counterexample :
    gdfE.geoms.all (fun g => g.gtype == GeomType.point) = true ∧
    "geometry_type" ∈ ColNames (outputDf gdfE true "separate") := by
  decide

/-- C1 (amended: the FeatureSet is nonempty and has no attribute column already
named `geometry_type`): for every such Point-only FeatureSet, converting with
`coord_mode='separate'` and `include_geometry=true` yields `longitude` and
`latitude` columns holding each feature's native x and y coordinates, no
`geometry_type` column, and no `geometry` column. -/
theorem claim_C1_separate_point_native_xy (gdf : GeoDataFrame)
    (hne : gdf.geoms ≠ [])
    (hpt : ∀ g ∈ gdf.geoms, g.gtype = GeomType.point)
    (hgt : "geometry_type" ∉ attrNames gdf) :
    (outputDf gdf true "separate").getCol "longitude" =
      some ⟨"longitude", Dtype.numeric, gdf.geoms.map (fun g => Value.num g.px)⟩ ∧
    (outputDf gdf true "separate").getCol "latitude" =
      some ⟨"latitude", Dtype.numeric, gdf.geoms.map (fun g => Value.num g.py)⟩ ∧
    "geometry_type" ∉ ColNames (outputDf gdf true "separate") ∧
    "geometry" ∉ ColNames (outputDf gdf true "separate") := by
  have hpt2 : "Point" ∈ gdf.geoms.map (fun g => g.gtype.name) := by
    obtain ⟨g, hg⟩ := List.exists_mem_of_ne_nil gdf.geoms hne
    exact List.mem_map.mpr ⟨g, hg, by rw [hpt g hg]; rfl⟩
  have hfl := flatten_separate_point gdf hpt2
  refine ⟨?_, ?_, ?_, ?_⟩
  · rw [outputDf, hfl, getCol_cleanupDf, getCol_dropCol_ne _ (by decide),
      getCol_setCol_ne _ (by decide), getCol_setCol_self]
    simp [cleanupColumn_numeric]
  · rw [outputDf, hfl, getCol_cleanupDf, getCol_dropCol_ne _ (by decide),
      getCol_setCol_self]
    simp [cleanupColumn_numeric]
  · rw [outputDf, hfl, colNames_cleanupDf]
    intro hmem
    rw [colNames_dropCol_mem] at hmem
    rcases colNames_setCol_mem _ _ _ _ hmem.1 with h2 | h2
    · rcases colNames_setCol_mem _ _ _ _ h2 with h3 | h3
      · rw [colNames_toDf] at h3
        rcases List.mem_append.mp h3 with h4 | h4
        · exact hgt h4
        · simp at h4
      · exact absurd h3 (by decide)
    · exact absurd h2 (by decide)
  · rw [outputDf, hfl, colNames_cleanupDf]
    intro hmem
    rw [colNames_dropCol_mem] at hmem
    exact hmem.2 rfl

/-- C2: for every FeatureSet with zero Point geometries, `separate` mode takes
the centroid branch: `longitude` and `latitude` hold each geometry's centroid
coordinates, `geometry_type` holds each feature's geometry type name, and the
`geometry` column is dropped. -/
theorem claim_C2_separate_centroid (gdf : GeoDataFrame)
    (hnp : ∀ g ∈ gdf.geoms, g.gtype ≠ GeomType.point) :
    (outputDf gdf true "separate").getCol "longitude" =
      some ⟨"longitude", Dtype.numeric, gdf.geoms.map (fun g => Value.num g.cx)⟩ ∧
    (outputDf gdf true "separate").getCol "latitude" =
      some ⟨"latitude", Dtype.numeric, gdf.geoms.map (fun g => Value.num g.cy)⟩ ∧
    (outputDf gdf true "separate").getCol "geometry_type" =
      some ⟨"geometry_type", Dtype.object, gdf.geoms.map (fun g => Value.str g.gtype.name)⟩ ∧
    "geometry" ∉ ColNames (outputDf gdf true "separate") := by
  have hnp2 : "Point" ∉ gdf.geoms.map (fun g => g.gtype.name) := by
    intro hmem
    obtain ⟨g, hg, hgn⟩ := List.mem_map.mp hmem
    exact hnp g hg (gtype_name_point.mp hgn)
  have hfl := flatten_separate_no_point gdf hnp2
  refine ⟨?_, ?_, ?_, ?_⟩
  · rw [outputDf, hfl, getCol_cleanupDf, getCol_dropCol_ne _ (by decide),
      getCol_setCol_ne _ (by decide), getCol_setCol_ne _ (by decide), getCol_setCol_self]
    simp [cleanupColumn_numeric]
  · rw [outputDf, hfl, getCol_cleanupDf, getCol_dropCol_ne _ (by decide),
      getCol_setCol_ne _ (by decide), getCol_setCol_self]
    simp [cleanupColumn_numeric]
  · rw [outputDf, hfl, getCol_cleanupDf, getCol_dropCol_ne _ (by decide),
      getCol_setCol_self]
    have : cleanupColumn ⟨"geometry_type", Dtype.object,
        gdf.geoms.map (fun g => Value.str g.gtype.name)⟩ =
        ⟨"geometry_type", Dtype.object, gdf.geoms.map (fun g => Value.str g.gtype.name)⟩ :=
      cleanupColumn_str_cells rfl
    simp [this]
  · rw [outputDf, hfl, colNames_cleanupDf]
    intro hmem
    rw [colNames_dropCol_mem] at hmem
    exact hmem.2 rfl

/-- C3: for every FeatureSet, `wkt` mode appends a `geometry_wkt` column of
WKT encodings and a `geometry_type` column of type names, and drops the
`geometry` column; when the attribute names do not clash with the two derived
names, the resulting schema is exactly the attributes followed by
`geometry_wkt` and `geometry_type`. -/
theorem claim_C3_wkt_columns (gdf : GeoDataFrame) (hwf : gdf.WellFormed) :
    (outputDf gdf true "wkt").getCol "geometry_wkt" =
      some ⟨"geometry_wkt", Dtype.object, gdf.geoms.map (fun g => Value.str g.wkt)⟩ ∧
    (outputDf gdf true "wkt").getCol "geometry_type" =
      some ⟨"geometry_type", Dtype.object, gdf.geoms.map (fun g => Value.str g.gtype.name)⟩ ∧
    "geometry" ∉ ColNames (outputDf gdf true "wkt") ∧
    ("geometry_wkt" ∉ attrNames gdf → "geometry_type" ∉ attrNames gdf →
      ColNames (outputDf gdf true "wkt") =
        attrNames gdf ++ ["geometry_wkt", "geometry_type"]) := by
  have hfl := flatten_wkt gdf
  refine ⟨?_, ?_, ?_, ?_⟩
  · rw [outputDf, hfl, getCol_cleanupDf, getCol_dropCol_ne _ (by decide),
      getCol_setCol_ne _ (by decide), getCol_setCol_self]
    have : cleanupColumn ⟨"geometry_wkt", Dtype.object,
        gdf.geoms.map (fun g => Value.str g.wkt)⟩ =
        ⟨"geometry_wkt", Dtype.object, gdf.geoms.map (fun g => Value.str g.wkt)⟩ :=
      cleanupColumn_str_cells rfl
    simp [this]
  · rw [outputDf, hfl, getCol_cleanupDf, getCol_dropCol_ne _ (by decide),
      getCol_setCol_self]
    have : cleanupColumn ⟨"geometry_type", Dtype.object,
        gdf.geoms.map (fun g => Value.str g.gtype.name)⟩ =
        ⟨"geometry_type", Dtype.object, gdf.geoms.map (fun g => Value.str g.gtype.name)⟩ :=
      cleanupColumn_str_cells rfl
    simp [this]
  · rw [outputDf, hfl, colNames_cleanupDf]
    intro hmem
    rw [colNames_dropCol_mem] at hmem
    exact hmem.2 rfl
  · intro hw hg
    rw [outputDf, hfl, colNames_cleanupDf, colNames_dropCol]
    rw [colNames_setCol_not_mem, colNames_setCol_not_mem]
    · rw [colNames_toDf, List.append_assoc, List.append_assoc, List.filter_append,
        filter_ne_geometry hwf.2]
      congr 1
    · rw [colNames_toDf]
      intro hmem
      rcases List.mem_append.mp hmem with h4 | h4
      · exact hw h4
      · simp at h4
    · intro hmem
      rcases colNames_setCol_mem _ _ _ _ hmem with h4 | h4
      · rw [colNames_toDf] at h4
        rcases List.mem_append.mp h4 with h5 | h5
        · exact hg h5
        · simp at h5
      · exact absurd h4 (by decide)

/-- C4: with `coord_mode='none'`, or with `include_geometry=false` regardless
of the mode, the output has exactly the original non-geometry attribute
columns, in their original order, and hence the original attribute count. -/
theorem claim_C4_none_mode (gdf : GeoDataFrame) (inc : Bool) (fmt : String)
    (hwf : gdf.WellFormed) (h : fmt = "none" ∨ inc = false) :
    ColNames (outputDf gdf inc fmt) = attrNames gdf ∧
    (ColNames (outputDf gdf inc fmt)).length = gdf.attrs.length := by
  have hnames : ColNames (outputDf gdf inc fmt) = attrNames gdf := by
    rw [outputDf, flatten_none _ _ _ h, colNames_cleanupDf, colNames_dropCol, colNames_toDf,
      List.filter_append, filter_ne_geometry hwf.2]
    simp
  exact ⟨hnames, by rw [hnames]; simp [attrNames]⟩

theorem convert_eval {r : Geometry → Geometry} {fs : FS} {p : String} {gdf : GeoDataFrame}
    (hget : fsGet fs p = some (FileData.shapefile gdf)) (inc : Bool) (fmt : String) :
    convert_shapefile_to_csv r fs p none inc fmt =
      Except.ok (fsWrite fs (withSuffixCsv p)
        (FileData.csv (outputDf (applyCrs r gdf) inc fmt).toCsv), withSuffixCsv p) := by
  unfold convert_shapefile_to_csv
  rw [fsExists_of_fsGet hget, hget]
  rfl

/-- C5: reprojection policy.  The geometries are reprojected to EPSG:4326
exactly when a CRS is declared and differs from 4326; a missing CRS skips
reprojection silently (and loading and converting still succeeds); a declared
EPSG:4326 passes the geometries through unchanged. -/
theorem claim_C5_crs_policy (r : Geometry → Geometry) (gdf : GeoDataFrame) :
    (gdf.crs = none → applyCrs r gdf = gdf) ∧
    (gdf.crs = some 4326 → applyCrs r gdf = gdf) ∧
    (∀ epsg, gdf.crs = some epsg → epsg ≠ 4326 →
      applyCrs r gdf = ⟨gdf.attrs, gdf.geoms.map r, some 4326⟩) ∧
    (∀ fs p inc fmt, fsGet fs p = some (FileData.shapefile gdf) → gdf.crs = none →
      ∃ out, convert_shapefile_to_csv r fs p none inc fmt = Except.ok out) := by
  refine ⟨?_, ?_, ?_, ?_⟩
  · intro h
    simp [applyCrs, h]
  · intro h
    simp [applyCrs, h]
  · intro epsg h hne
    simp [applyCrs, h, hne]
  · intro fs p inc fmt hget hcrs
    exact ⟨_, convert_eval hget inc fmt⟩

/-- C6: CLI behaviour.  A missing source path makes `convert` raise
`FileNotFoundError` before anything is written, and the CLI prints a single
`Error: <message>` line, leaves the filesystem unchanged and exits with code
1; when `convert` succeeds the CLI exits with code 0 after printing the output
path and a preview of the first 5 rows of the produced CSV. -/
theorem claim_C6_cli (r : Geometry → Geometry) (fs : FS) (args : CliArgs) :
    (fsExists fs args.shapefile = false →
      convert_shapefile_to_csv r fs args.shapefile args.output (!args.no_geometry)
          args.coord_format =
        Except.error (ConvError.notFound ("Shapefile not found: " ++ args.shapefile)) ∧
      main r fs args =
        ⟨1, ["Error: Shapefile not found: " ++ args.shapefile], none, fs⟩) ∧
    (∀ fs2 path c,
      convert_shapefile_to_csv r fs args.shapefile args.output (!args.no_geometry)
          args.coord_format = Except.ok (fs2, path) →
      fsGet fs2 path = some (FileData.csv c) →
      main r fs args =
        ⟨0, ["Conversion completed successfully!", "Output file: " ++ path,
             "Preview of first 5 rows:"], some c.headTable, fs2⟩) := by
  constructor
  · intro h
    have hconv : convert_shapefile_to_csv r fs args.shapefile args.output (!args.no_geometry)
        args.coord_format =
        Except.error (ConvError.notFound ("Shapefile not found: " ++ args.shapefile)) := by
      unfold convert_shapefile_to_csv
      rw [h]
      rfl
    refine ⟨hconv, ?_⟩
    simp only [main]
    rw [hconv]
    rfl
  · intro fs2 path c hok hread
    simp only [main]
    rw [hok]
    dsimp only
    rw [hread]

/-- C7: the post-derivation scan visits every remaining column; a column all
of whose cells are geometry objects is converted to its text encoding, and a
column whose first cell is not inspectable (the empty column, where `iloc[0]`
raises `IndexError`) is left unchanged. -/
theorem claim_C7_cleanup_scan (df : DataFrame) (c : Column) (hdt : DtypeOk c) :
    cleanupDf df = ⟨df.nrows, df.cols.map cleanupColumn⟩ ∧
    (c.cells = [] → cleanupColumn c = c) ∧
    (c.cells ≠ [] → (∀ v ∈ c.cells, v.isGeom = true) →
      cleanupColumn c = ⟨c.name, c.dtype, c.cells.map (fun w => Value.str w.toStr)⟩) := by
  refine ⟨rfl, fun h => cleanupColumn_nil h, fun hne hall => ?_⟩
  obtain ⟨nm, dt, cells⟩ := c
  simp only at hne hall ⊢
  have hobj : dt = Dtype.object := by
    cases hd : dt
    · rfl
    · exfalso
      obtain ⟨v, hv⟩ := List.exists_mem_of_ne_nil cells hne
      have h1 := hdt (by simpa using hd) v (by simpa using hv)
      have h2 := hall v hv
      cases v <;> simp [Value.isNum, Value.isGeom] at h1 h2
  subst hobj
  cases cells with
  | nil => exact absurd rfl hne
  | cons v t =>
    have hg := hall v (List.mem_cons_self v t)
    simp [cleanupColumn, hg]

/-- C10: a FeatureSet with zero features converts successfully: the scan's
`iloc[0]` inspection of an empty column hits `IndexError`, which is caught and
the column left unchanged, and a header-only CSV (no data rows) is written at
the returned path. -/
theorem claim_C10_empty_featureset (r : Geometry → Geometry) (fs : FS) (p : String)
    (gdf : GeoDataFrame) (inc : Bool) (fmt : String)
    (hget : fsGet fs p = some (FileData.shapefile gdf))
    (hempty : gdf.geoms = []) :
    (∃ fs2 c, convert_shapefile_to_csv r fs p none inc fmt =
        Except.ok (fs2, withSuffixCsv p) ∧
      fsGet fs2 (withSuffixCsv p) = some (FileData.csv c) ∧ c.rows = []) ∧
    (∀ c : Column, c.cells = [] → cleanupColumn c = c) := by
  refine ⟨?_, fun c hc => cleanupColumn_nil hc⟩
  rw [convert_eval hget inc fmt]
  refine ⟨_, _, rfl, fsGet_fsWrite _ _ _, ?_⟩
  have hn : (outputDf (applyCrs r gdf) inc fmt).nrows = 0 := by
    rw [nrows_outputDf, applyCrs_geoms_length, hempty]
    rfl
  simp [DataFrame.toCsv, hn]

/-- C9: an unknown `coord_format` (with `include_geometry=true`) raises no
error: no flattening branch runs, the `geometry` column is retained, the
post-derivation scan stringifies it to WKT text when the table is non-empty,
and the output schema is exactly the attributes plus `geometry`, with no
`longitude`, `latitude` or `geometry_type` columns. -/
theorem claim_C9_unknown_mode (gdf : GeoDataFrame) (fmt : String) (hwf : gdf.WellFormed)
    (h1 : fmt ≠ "separate") (h2 : fmt ≠ "wkt") (h3 : fmt ≠ "centroid") (h4 : fmt ≠ "none")
    (hlon : "longitude" ∉ attrNames gdf) (hlat : "latitude" ∉ attrNames gdf)
    (hgt : "geometry_type" ∉ attrNames gdf) :
    flattenGeometry true fmt gdf = gdf.toDf ∧
    (gdf.geoms ≠ [] → (outputDf gdf true fmt).getCol "geometry" =
      some ⟨"geometry", Dtype.object, gdf.geoms.map (fun g => Value.str g.wkt)⟩) ∧
    ColNames (outputDf gdf true fmt) = attrNames gdf ++ ["geometry"] ∧
    "longitude" ∉ ColNames (outputDf gdf true fmt) ∧
    "latitude" ∉ ColNames (outputDf gdf true fmt) ∧
    "geometry_type" ∉ ColNames (outputDf gdf true fmt) ∧
    (∀ r fs p, fsGet fs p = some (FileData.shapefile gdf) →
      ∃ fs2 c, convert_shapefile_to_csv r fs p none true fmt =
          Except.ok (fs2, withSuffixCsv p) ∧
        fsGet fs2 (withSuffixCsv p) = some (FileData.csv c)) := by
  have hfl := flatten_unknown true fmt gdf h4 rfl h1 h3 h2
  have hc3 : ColNames (outputDf gdf true fmt) = attrNames gdf ++ ["geometry"] := by
    rw [outputDf, hfl, colNames_cleanupDf, colNames_toDf]
  refine ⟨hfl, ?_, hc3, ?_, ?_, ?_, ?_⟩
  · intro hne
    rw [outputDf, hfl, getCol_cleanupDf, getCol_toDf_geometry _ hwf.2]
    obtain ⟨g, t, hg⟩ : ∃ g t, gdf.geoms = g :: t := by
      cases hgeoms : gdf.geoms with
      | nil => exact absurd hgeoms hne
      | cons g t => exact ⟨g, t, rfl⟩
    rw [hg]
    simp [cleanupColumn, Value.isGeom, List.map_map, Function.comp, Value.toStr]
  · rw [hc3]
    simp [List.mem_append, hlon]
  · rw [hc3]
    simp [List.mem_append, hlat]
  · rw [hc3]
    simp [List.mem_append, hgt]
  · intro r fs p hget
    rw [convert_eval hget true fmt]
    exact ⟨_, _, rfl, fsGet_fsWrite _ _ _⟩

theorem colNames_flatten_policy (gdf : GeoDataFrame) (inc : Bool) (fmt : String)
    (hfree : ∀ n ∈ attrNames gdf,
      n ∉ (["geometry", "longitude", "latitude", "geometry_type", "geometry_wkt"] : List String))
    (hfmt : fmt = "separate" ∨ fmt = "wkt" ∨ fmt = "centroid" ∨ fmt = "none") :
    ColNames (flattenGeometry inc fmt gdf) =
      specPredictedColumns inc fmt (attrNames gdf) (gdf.geoms.map (fun g => g.gtype.name)) := by
  have hgeom : "geometry" ∉ attrNames gdf := fun h => hfree _ h (by decide)
  have hlon : "longitude" ∉ attrNames gdf := fun h => hfree _ h (by decide)
  have hlat : "latitude" ∉ attrNames gdf := fun h => hfree _ h (by decide)
  have hgt : "geometry_type" ∉ attrNames gdf := fun h => hfree _ h (by decide)
  have hwkt : "geometry_wkt" ∉ attrNames gdf := fun h => hfree _ h (by decide)
  cases inc with
  | false =>
    rw [flatten_none _ _ _ (Or.inr rfl), colNames_dropCol, colNames_toDf, List.filter_append,
      filter_ne_geometry hgeom]
    rw [specPredictedColumns, if_pos (Or.inl rfl)]
    simp
  | true =>
    rcases hfmt with h | h | h | h
    · subst h
      by_cases hp : "Point" ∈ gdf.geoms.map (fun g => g.gtype.name)
      · rw [flatten_separate_point gdf hp]
        have e1 : ColNames (gdf.toDf.setCol "longitude" Dtype.numeric
            (gdf.geoms.map (fun g => Value.num g.px))) =
            (attrNames gdf ++ ["geometry"]) ++ ["longitude"] := by
          rw [colNames_setCol_not_mem, colNames_toDf]
          rw [colNames_toDf]
          simp [List.mem_append, hlon]
        have e2 : ColNames ((gdf.toDf.setCol "longitude" Dtype.numeric
            (gdf.geoms.map (fun g => Value.num g.px))).setCol "latitude" Dtype.numeric
            (gdf.geoms.map (fun g => Value.num g.py))) =
            ((attrNames gdf ++ ["geometry"]) ++ ["longitude"]) ++ ["latitude"] := by
          rw [colNames_setCol_not_mem, e1]
          rw [e1]
          simp [List.mem_append, hlat]
        rw [colNames_dropCol, e2, List.filter_append, List.filter_append, List.filter_append,
          filter_ne_geometry hgeom]
        rw [specPredictedColumns, if_neg (by simp), if_pos rfl, if_pos hp]
        simp
      · rw [flatten_separate_no_point gdf hp]
        have e1 : ColNames (gdf.toDf.setCol "longitude" Dtype.numeric
            (gdf.geoms.map (fun g => Value.num g.cx))) =
            (attrNames gdf ++ ["geometry"]) ++ ["longitude"] := by
          rw [colNames_setCol_not_mem, colNames_toDf]
          rw [colNames_toDf]
          simp [List.mem_append, hlon]
        have e2 : ColNames ((gdf.toDf.setCol "longitude" Dtype.numeric
            (gdf.geoms.map (fun g => Value.num g.cx))).setCol "latitude" Dtype.numeric
            (gdf.geoms.map (fun g => Value.num g.cy))) =
            ((attrNames gdf ++ ["geometry"]) ++ ["longitude"]) ++ ["latitude"] := by
          rw [colNames_setCol_not_mem, e1]
          rw [e1]
          simp [List.mem_append, hlat]
        have e3 : ColNames (((gdf.toDf.setCol "longitude" Dtype.numeric
            (gdf.geoms.map (fun g => Value.num g.cx))).setCol "latitude" Dtype.numeric
            (gdf.geoms.map (fun g => Value.num g.cy))).setCol "geometry_type" Dtype.object
            (gdf.geoms.map (fun g => Value.str g.gtype.name))) =
            (((attrNames gdf ++ ["geometry"]) ++ ["longitude"]) ++ ["latitude"]) ++
              ["geometry_type"] := by
          rw [colNames_setCol_not_mem, e2]
          rw [e2]
          simp [List.mem_append, hgt]
        rw [colNames_dropCol, e3, List.filter_append, List.filter_append, List.filter_append,
          List.filter_append, filter_ne_geometry hgeom]
        rw [specPredictedColumns, if_neg (by simp), if_pos rfl, if_neg hp]
        simp
    · subst h
      rw [flatten_wkt gdf]
      have e1 : ColNames (gdf.toDf.setCol "geometry_wkt" Dtype.object
          (gdf.geoms.map (fun g => Value.str g.wkt))) =
          (attrNames gdf ++ ["geometry"]) ++ ["geometry_wkt"] := by
        rw [colNames_setCol_not_mem, colNames_toDf]
        rw [colNames_toDf]
        simp [List.mem_append, hwkt]
      have e2 : ColNames ((gdf.toDf.setCol "geometry_wkt" Dtype.object
          (gdf.geoms.map (fun g => Value.str g.wkt))).setCol "geometry_type" Dtype.object
          (gdf.geoms.map (fun g => Value.str g.gtype.name))) =
          ((attrNames gdf ++ ["geometry"]) ++ ["geometry_wkt"]) ++ ["geometry_type"] := by
        rw [colNames_setCol_not_mem, e1]
        rw [e1]
        simp [List.mem_append, hgt]
      rw [colNames_dropCol, e2, List.filter_append, List.filter_append, List.filter_append,
        filter_ne_geometry hgeom]
      rw [specPredictedColumns, if_neg (by simp), if_neg (by simp), if_neg (by simp),
        if_pos rfl]
      simp
    · subst h
      rw [flatten_centroid gdf]
      have e1 : ColNames (gdf.toDf.setCol "longitude" Dtype.numeric
          (gdf.geoms.map (fun g => Value.num g.cx))) =
          (attrNames gdf ++ ["geometry"]) ++ ["longitude"] := by
        rw [colNames_setCol_not_mem, colNames_toDf]
        rw [colNames_toDf]
        simp [List.mem_append, hlon]
      have e2 : ColNames ((gdf.toDf.setCol "longitude" Dtype.numeric
          (gdf.geoms.map (fun g => Value.num g.cx))).setCol "latitude" Dtype.numeric
          (gdf.geoms.map (fun g => Value.num g.cy))) =
          ((attrNames gdf ++ ["geometry"]) ++ ["longitude"]) ++ ["latitude"] := by
        rw [colNames_setCol_not_mem, e1]
        rw [e1]
        simp [List.mem_append, hlat]
      have e3 : ColNames (((gdf.toDf.setCol "longitude" Dtype.numeric
          (gdf.geoms.map (fun g => Value.num g.cx))).setCol "latitude" Dtype.numeric
          (gdf.geoms.map (fun g => Value.num g.cy))).setCol "geometry_type" Dtype.object
          (gdf.geoms.map (fun g => Value.str g.gtype.name))) =
          (((attrNames gdf ++ ["geometry"]) ++ ["longitude"]) ++ ["latitude"]) ++
            ["geometry_type"] := by
        rw [colNames_setCol_not_mem, e2]
        rw [e2]
        simp [List.mem_append, hgt]
      rw [colNames_dropCol, e3, List.filter_append, List.filter_append, List.filter_append,
        List.filter_append, filter_ne_geometry hgeom]
      rw [specPredictedColumns, if_neg (by simp), if_neg (by simp), if_pos rfl]
      simp
    · subst h
      rw [flatten_none _ _ _ (Or.inl rfl), colNames_dropCol, colNames_toDf, List.filter_append,
        filter_ne_geometry hgeom]
      rw [specPredictedColumns, if_pos (Or.inr rfl)]
      simp

/-- C8: round trip.  Converting a FeatureSet and reading back the written CSV
yields one data row per feature and exactly the column names predicted by the
coordinate-policy table for the chosen mode (with the schema-collision-free
proviso on attribute names), and the returned destination path is the source
path with its extension replaced by `.csv` when none was supplied. -/
theorem claim_C8_round_trip (r : Geometry → Geometry) (fs : FS) (p : String)
    (gdf : GeoDataFrame) (inc : Bool) (fmt : String)
    (hget : fsGet fs p = some (FileData.shapefile gdf))
    (hr : ∀ g, (r g).gtype = g.gtype)
    (hfree : ∀ n ∈ attrNames gdf,
      n ∉ (["geometry", "longitude", "latitude", "geometry_type", "geometry_wkt"] : List String))
    (hfmt : fmt = "separate" ∨ fmt = "wkt" ∨ fmt = "centroid" ∨ fmt = "none") :
    ∃ fs2 c, convert_shapefile_to_csv r fs p none inc fmt =
        Except.ok (fs2, withSuffixCsv p) ∧
      fsGet fs2 (withSuffixCsv p) = some (FileData.csv c) ∧
      c.rows.length = gdf.geoms.length ∧
      c.header = specPredictedColumns inc fmt (attrNames gdf)
        (gdf.geoms.map (fun g => g.gtype.name)) := by
  rw [convert_eval hget inc fmt]
  refine ⟨_, _, rfl, fsGet_fsWrite _ _ _, ?_, ?_⟩
  · rw [toCsv_rows_length, nrows_outputDf, applyCrs_geoms_length]
  · rw [toCsv_header, outputDf, colNames_cleanupDf]
    have hfree2 : ∀ n ∈ attrNames (applyCrs r gdf),
        n ∉ (["geometry", "longitude", "latitude", "geometry_type", "geometry_wkt"] :
          List String) := by
      rw [attrNames_applyCrs]
      exact hfree
    rw [colNames_flatten_policy (applyCrs r gdf) inc fmt hfree2 hfmt, attrNames_applyCrs,
      applyCrs_gtype_names r gdf hr]

/-- C1 witness: the single-point FeatureSet instantiates the amended claim. -/
theorem claim_C1_witness :
    (outputDf gdfPt true "separate").getCol "longitude" =
      some ⟨"longitude", Dtype.numeric, gdfPt.geoms.map (fun g => Value.num g.px)⟩ ∧
    (outputDf gdfPt true "separate").getCol "latitude" =
      some ⟨"latitude", Dtype.numeric, gdfPt.geoms.map (fun g => Value.num g.py)⟩ ∧
    "geometry_type" ∉ ColNames (outputDf gdfPt true "separate") ∧
    "geometry" ∉ ColNames (outputDf gdfPt true "separate") :=
  claim_C1_separate_point_native_xy gdfPt (by decide) (by decide) (by decide)

/-- C2 witness: the single-polygon FeatureSet instantiates the claim. -/
theorem claim_C2_witness :
    (outputDf gdfPg true "separate").getCol "longitude" =
      some ⟨"longitude", Dtype.numeric, gdfPg.geoms.map (fun g => Value.num g.cx)⟩ ∧
    (outputDf gdfPg true "separate").getCol "latitude" =
      some ⟨"latitude", Dtype.numeric, gdfPg.geoms.map (fun g => Value.num g.cy)⟩ ∧
    (outputDf gdfPg true "separate").getCol "geometry_type" =
      some ⟨"geometry_type", Dtype.object, gdfPg.geoms.map (fun g => Value.str g.gtype.name)⟩ ∧
    "geometry" ∉ ColNames (outputDf gdfPg true "separate") :=
  claim_C2_separate_centroid gdfPg (by decide)

/-- C3 witness: the single-polygon FeatureSet instantiates the claim. -/
theorem claim_C3_witness :
    (outputDf gdfPg true "wkt").getCol "geometry_wkt" =
      some ⟨"geometry_wkt", Dtype.object, gdfPg.geoms.map (fun g => Value.str g.wkt)⟩ ∧
    (outputDf gdfPg true "wkt").getCol "geometry_type" =
      some ⟨"geometry_type", Dtype.object, gdfPg.geoms.map (fun g => Value.str g.gtype.name)⟩ ∧
    "geometry" ∉ ColNames (outputDf gdfPg true "wkt") ∧
    ("geometry_wkt" ∉ attrNames gdfPg → "geometry_type" ∉ attrNames gdfPg →
      ColNames (outputDf gdfPg true "wkt") =
        attrNames gdfPg ++ ["geometry_wkt", "geometry_type"]) :=
  claim_C3_wkt_columns gdfPg ⟨by decide, by decide⟩

/-- C4 witness: the single-polygon FeatureSet with mode `none`. -/
theorem claim_C4_witness :
    ColNames (outputDf gdfPg true "none") = attrNames gdfPg ∧
    (ColNames (outputDf gdfPg true "none")).length = gdfPg.attrs.length :=
  claim_C4_none_mode gdfPg true "none" ⟨by decide, by decide⟩ (Or.inl rfl)

/-- C5 witness: the three CRS cases and the silent-skip conversion, at
concrete GeoDataFrames. -/
theorem claim_C5_witness :
    applyCrs id gdfNC = gdfNC ∧
    applyCrs id gdfPt = gdfPt ∧
    applyCrs id gdfMerc = ⟨gdfMerc.attrs, gdfMerc.geoms.map id, some 4326⟩ ∧
    (∃ out, convert_shapefile_to_csv id fsNC "n.shp" none true "separate" = Except.ok out) :=
  ⟨(claim_C5_crs_policy id gdfNC).1 rfl,
   (claim_C5_crs_policy id gdfPt).2.1 rfl,
   (claim_C5_crs_policy id gdfMerc).2.2.1 3857 rfl (by decide),
   (claim_C5_crs_policy id gdfNC).2.2.2 fsNC "n.shp" true "separate" (by decide) rfl⟩

/-- C6 witness: a missing path exits with code 1 and an `Error:` line leaving
the filesystem unchanged; a successful conversion exits with code 0 printing
the output path and the preview. -/
theorem claim_C6_witness :
    main id [] ⟨"missing.shp", none, "separate", false⟩ =
      ⟨1, ["Error: Shapefile not found: missing.shp"], none, []⟩ ∧
    main id fsPt ⟨"a.shp", some "out.csv", "none", false⟩ =
      ⟨0, ["Conversion completed successfully!", "Output file: out.csv",
           "Preview of first 5 rows:"], some (Csv.headTable ⟨["name"], [["a"]]⟩),
       [("out.csv", FileData.csv ⟨["name"], [["a"]]⟩),
        ("a.shp", FileData.shapefile gdfPt)]⟩ :=
  ⟨((claim_C6_cli id [] ⟨"missing.shp", none, "separate", false⟩).1 (by decide)).2,
   (claim_C6_cli id fsPt ⟨"a.shp", some "out.csv", "none", false⟩).2
     [("out.csv", FileData.csv ⟨["name"], [["a"]]⟩), ("a.shp", FileData.shapefile gdfPt)]
     "out.csv" ⟨["name"], [["a"]]⟩ (by decide) (by decide)⟩

/-- C7 witness: a column of raw geometry cells inside a concrete dataframe. -/
theorem claim_C7_witness :
    cleanupDf dfLeak = ⟨dfLeak.nrows, dfLeak.cols.map cleanupColumn⟩ ∧
    (colLeak.cells = [] → cleanupColumn colLeak = colLeak) ∧
    (colLeak.cells ≠ [] → (∀ v ∈ colLeak.cells, v.isGeom = true) →
      cleanupColumn colLeak = ⟨colLeak.name, colLeak.dtype,
        colLeak.cells.map (fun w => Value.str w.toStr)⟩) :=
  claim_C7_cleanup_scan dfLeak colLeak (fun h => absurd h (by decide))

/-- C8 witness: the single-point shapefile converted with the default mode. -/
theorem claim_C8_witness :
    ∃ fs2 c, convert_shapefile_to_csv id fsPt "a.shp" none true "separate" =
        Except.ok (fs2, withSuffixCsv "a.shp") ∧
      fsGet fs2 (withSuffixCsv "a.shp") = some (FileData.csv c) ∧
      c.rows.length = gdfPt.geoms.length ∧
      c.header = specPredictedColumns true "separate" (attrNames gdfPt)
        (gdfPt.geoms.map (fun g => g.gtype.name)) :=
  claim_C8_round_trip id fsPt "a.shp" gdfPt true "separate" (by decide) (fun g => rfl)
    (by decide) (Or.inl rfl)

/-- C9 witness: the single-point shapefile with the unknown mode `foo`. -/
theorem claim_C9_witness :
    flattenGeometry true "foo" gdfPt = gdfPt.toDf ∧
    (gdfPt.geoms ≠ [] → (outputDf gdfPt true "foo").getCol "geometry" =
      some ⟨"geometry", Dtype.object, gdfPt.geoms.map (fun g => Value.str g.wkt)⟩) ∧
    ColNames (outputDf gdfPt true "foo") = attrNames gdfPt ++ ["geometry"] ∧
    "longitude" ∉ ColNames (outputDf gdfPt true "foo") ∧
    "latitude" ∉ ColNames (outputDf gdfPt true "foo") ∧
    "geometry_type" ∉ ColNames (outputDf gdfPt true "foo") ∧
    (∀ r fs p, fsGet fs p = some (FileData.shapefile gdfPt) →
      ∃ fs2 c, convert_shapefile_to_csv r fs p none true "foo" =
          Except.ok (fs2, withSuffixCsv p) ∧
        fsGet fs2 (withSuffixCsv p) = some (FileData.csv c)) :=
  claim_C9_unknown_mode gdfPt "foo" ⟨by decide, by decide⟩ (by decide) (by decide)
    (by decide) (by decide) (by decide) (by decide) (by decide)

/-- C10 witness: the zero-feature shapefile converts to a header-only CSV. -/
theorem claim_C10_witness :
    (∃ fs2 c, convert_shapefile_to_csv id fsE "e.shp" none true "separate" =
        Except.ok (fs2, withSuffixCsv "e.shp") ∧
      fsGet fs2 (withSuffixCsv "e.shp") = some (FileData.csv c) ∧ c.rows = []) ∧
    (∀ c : Column, c.cells = [] → cleanupColumn c = c) :=
  claim_C10_empty_featureset id fsE "e.shp" gdfE true "separate" (by decide) rfl

end ShapeConv
